import Mathlib

/-!
Verification of the Bluetooth management command codec and adapter control
facade (`src/src/Mgmt.cpp`, namespace `ggk`).

Byte strings (`std::string`, fixed `char`/`uint8_t` buffers) are modelled as
`List Nat`, each element one byte.  Packed structs are modelled as explicit
little-endian byte serializations.  The transport (`HciAdapter`) and the
logger are modelled as an explicit `send : List Nat → Bool` stub and an
explicit warning list in the result.
-/

namespace ggk

/-- Modelled from the spec: `HciAdapter::HciHeader` (declared in `HciAdapter.h`,
not under `src/`): 2-byte command code, 2-byte controller index, 2-byte payload
length, all little-endian, no padding (spec section 6). -/
structure HciHeader where
  code : Nat
  controllerId : Nat
  dataSize : Nat
deriving Repr, DecidableEq

/-- Little-endian bytes of a 16-bit value. -/
def u16Bytes (n : Nat) : List Nat :=
  [n % 256, n / 256 % 256]

/-- Little-endian bytes of a 32-bit value. -/
def u32Bytes (n : Nat) : List Nat :=
  [n % 256, n / 256 % 256, n / 65536 % 256, n / 16777216 % 256]

/-- Serialized bytes of the packed 6-byte header. -/
def HciHeader.bytes (h : HciHeader) : List Nat :=
  u16Bytes h.code ++ u16Bytes h.controllerId ++ u16Bytes h.dataSize

/-- `sizeof(HciAdapter::HciHeader)` for the packed struct: three `uint16_t`. -/
def hciHeaderSize : Nat := 2 + 2 + 2

/-- Modelled from the spec: `kMaxAdvertisingNameLength` (declared in `Mgmt.h`,
not under `src/`).  The spec (section 4.2) requires the limit to be strictly
less than the 249-byte buffer, reserving exactly the terminating null byte. -/
def kMaxAdvertisingNameLength : Nat := 248

/-- Modelled from the spec: `kMaxAdvertisingShortNameLength` (declared in
`Mgmt.h`, not under `src/`), strictly less than the 11-byte buffer, reserving
exactly the terminating null byte. -/
def kMaxAdvertisingShortNameLength : Nat := 10

/-- Modelled from the spec: command-code constants declared in `Mgmt.h` (not
under `src/`); values are the kernel management-protocol opcodes the spec's
wire format refers to.  No claim depends on the numeric values. -/
def ESetPoweredCommand : Nat := 0x0005

/-- Modelled from the spec: see `ESetPoweredCommand`. -/
def ESetConnectableCommand : Nat := 0x0007

/-- Modelled from the spec: see `ESetPoweredCommand`. -/
def ESetBondableCommand : Nat := 0x0009

/-- Modelled from the spec: see `ESetPoweredCommand`. -/
def ESetLowEnergyCommand : Nat := 0x000D

/-- Modelled from the spec: see `ESetPoweredCommand`. -/
def ESetLocalNameCommand : Nat := 0x000F

/-- Modelled from the spec: see `ESetPoweredCommand`. -/
def ESetAdvertisingCommand : Nat := 0x0029

/-- Modelled from the spec: see `ESetPoweredCommand`. -/
def ESetBREDRCommand : Nat := 0x002A

/-- Modelled from the spec: see `ESetPoweredCommand`. -/
def ESetSecureConnectionsCommand : Nat := 0x002D

/-- Modelled from the spec: see `ESetPoweredCommand`. -/
def EAddAdvertisingCommand : Nat := 0x003E

/-- Modelled from the spec: the command-code-to-name lookup table
`HciAdapter::kCommandCodeNames` (external to this core, spec section 1);
used only to build the warning text of `setState`. -/
def kCommandCodeNames (code : Nat) : String :=
  if code = ESetPoweredCommand then "Set Powered"
  else if code = ESetConnectableCommand then "Set Connectable"
  else if code = ESetBondableCommand then "Set Bondable"
  else if code = ESetLowEnergyCommand then "Set Low Energy"
  else if code = ESetAdvertisingCommand then "Set Advertising"
  else if code = ESetBREDRCommand then "Set BR/EDR"
  else if code = ESetSecureConnectionsCommand then "Set Secure Connections"
  else "Unknown"

/-- The `Mgmt` object: holds only the controller index fixed at construction
(`Mgmt::Mgmt`, Mgmt.cpp lines 48-52). -/
structure Mgmt where
  controllerIndex : Nat
deriving Repr, DecidableEq

/-- `Mgmt::truncateName` (Mgmt.cpp lines 271-279). -/
def truncateName (name : List Nat) : List Nat :=
  if name.length ≤ kMaxAdvertisingNameLength then
    name
  else
    name.take kMaxAdvertisingNameLength

/-- `Mgmt::truncateShortName` (Mgmt.cpp lines 283-291). -/
def truncateShortName (name : List Nat) : List Nat :=
  if name.length ≤ kMaxAdvertisingShortNameLength then
    name
  else
    name.take kMaxAdvertisingShortNameLength

/-- The bytes `snprintf(buf, size, "%s", s.c_str())` copies: the bytes of `s`
up to (excluding) the first NUL byte, at most `size - 1` of them. -/
def snprintfCopied (size : Nat) (s : List Nat) : List Nat :=
  (s.takeWhile (fun b => b ≠ 0)).take (size - 1)

/-- A fixed `size`-byte buffer after `memset(buf, 0, size)` followed by
`snprintf(buf, size, "%s", s.c_str())`: the copied bytes, then zeros (the
terminating null written by `snprintf` and the untouched `memset` tail). -/
def cStringBuffer (size : Nat) (s : List Nat) : List Nat :=
  snprintfCopied size s ++ List.replicate (size - (snprintfCopied size s).length) 0

/-- The `SRequest` struct of `Mgmt::setName`: packed header + `char name[249]`
+ `char shortName[11]` (Mgmt.cpp lines 67-71). -/
structure SetNameRequest where
  header : HciHeader
  name : List Nat
  shortName : List Nat
deriving Repr, DecidableEq

/-- Serialized bytes of the packed `SetNameRequest`. -/
def SetNameRequest.bytes (r : SetNameRequest) : List Nat :=
  r.header.bytes ++ r.name ++ r.shortName

/-- The frame built by `Mgmt::setName` (Mgmt.cpp lines 61-82): truncate both
inputs, set code/controller/dataSize (`sizeof(SRequest) - sizeof(HciHeader)`
= (6+249+11) - 6), zero both buffers and `snprintf` the strings in. -/
def setNameRequest (m : Mgmt) (name shortName : List Nat) : SetNameRequest :=
  { header :=
      { code := ESetLocalNameCommand
        controllerId := m.controllerIndex
        dataSize := (hciHeaderSize + 249 + 11) - hciHeaderSize }
    name := cStringBuffer 249 (truncateName name)
    shortName := cStringBuffer 11 (truncateShortName shortName) }

/-- The `SRequest` struct of `Mgmt::setState`: packed header + `uint8_t state`
(Mgmt.cpp lines 100-103). -/
structure SetStateRequest where
  header : HciHeader
  state : Nat
deriving Repr, DecidableEq

/-- Serialized bytes of the packed `SetStateRequest`. -/
def SetStateRequest.bytes (r : SetStateRequest) : List Nat :=
  r.header.bytes ++ [r.state]

/-- The frame built by `Mgmt::setState` (Mgmt.cpp lines 98-109).  The `state`
byte receives the `uint8_t` argument unchanged (`% 256` models the `uint8_t`
parameter type at the call boundary). -/
def setStateRequest (commandCode controllerId newState : Nat) : SetStateRequest :=
  { header :=
      { code := commandCode
        controllerId := controllerId
        dataSize := (hciHeaderSize + 1) - hciHeaderSize }
    state := newState % 256 }

/-- Frame built by `Mgmt::setPowered` (Mgmt.cpp lines 123-126). -/
def setPoweredRequest (m : Mgmt) (newState : Bool) : SetStateRequest :=
  setStateRequest ESetPoweredCommand m.controllerIndex (if newState then 1 else 0)

/-- Frame built by `Mgmt::setBredr` (Mgmt.cpp lines 131-134). -/
def setBredrRequest (m : Mgmt) (newState : Bool) : SetStateRequest :=
  setStateRequest ESetBREDRCommand m.controllerIndex (if newState then 1 else 0)

/-- Frame built by `Mgmt::setSecureConnections` (Mgmt.cpp lines 139-142). -/
def setSecureConnectionsRequest (m : Mgmt) (newState : Nat) : SetStateRequest :=
  setStateRequest ESetSecureConnectionsCommand m.controllerIndex newState

/-- Frame built by `Mgmt::setBondable` (Mgmt.cpp lines 147-150). -/
def setBondableRequest (m : Mgmt) (newState : Bool) : SetStateRequest :=
  setStateRequest ESetBondableCommand m.controllerIndex (if newState then 1 else 0)

/-- Frame built by `Mgmt::setConnectable` (Mgmt.cpp lines 155-158). -/
def setConnectableRequest (m : Mgmt) (newState : Bool) : SetStateRequest :=
  setStateRequest ESetConnectableCommand m.controllerIndex (if newState then 1 else 0)

/-- Frame built by `Mgmt::setLE` (Mgmt.cpp lines 163-166). -/
def setLERequest (m : Mgmt) (newState : Bool) : SetStateRequest :=
  setStateRequest ESetLowEnergyCommand m.controllerIndex (if newState then 1 else 0)

/-- Frame built by `Mgmt::setAdvertising` (Mgmt.cpp lines 172-175). -/
def setAdvertisingRequest (m : Mgmt) (newState : Nat) : SetStateRequest :=
  setStateRequest ESetAdvertisingCommand m.controllerIndex newState

/-- `memcpy`-style store of the bytes `bs` into `buf` starting at index `i`. -/
def storeBytes : List Nat → Nat → List Nat → List Nat
  | buf, _, [] => buf
  | buf, i, b :: bs => storeBytes (buf.set i b) (i + 1) bs

/-- `ADVERTISING_MAX_DATALEN` (Mgmt.cpp line 181). -/
def ADVERTISING_MAX_DATALEN : Nat := 31

/-- `SCAN_RSP_MAX_DATALEN` (Mgmt.cpp line 182). -/
def SCAN_RSP_MAX_DATALEN : Nat := 17

/-- The `SRequest` struct of `Mgmt::addAdvertising` (Mgmt.cpp lines 184-194):
packed header + instance, flags, duration, timeout, advDataLen, scanRspLen,
`data[31]`, `scanRspData[17]`.  The C++ field `instance` is a Lean keyword and
is named `inst` here. -/
structure AddAdvertisingRequest where
  header : HciHeader
  inst : Nat
  flags : Nat
  duration : Nat
  timeout : Nat
  advDataLen : Nat
  scanRspLen : Nat
  data : List Nat
  scanRspData : List Nat
deriving Repr, DecidableEq

/-- Serialized bytes of the packed `AddAdvertisingRequest`:
u8 instance, u32 flags, u16 duration, u16 timeout, u8 advDataLen,
u8 scanRspLen, 31-byte data, 17-byte scanRspData after the header. -/
def AddAdvertisingRequest.bytes (r : AddAdvertisingRequest) : List Nat :=
  r.header.bytes ++ [r.inst] ++ u32Bytes r.flags ++ u16Bytes r.duration
    ++ u16Bytes r.timeout ++ [r.advDataLen, r.scanRspLen] ++ r.data ++ r.scanRspData

/-- The advertising data buffer of `Mgmt::addAdvertising` (Mgmt.cpp lines
211-246): `data[0..20]` assigned in order on the zero-initialized 31-byte
array; indices 21-30 stay reserved (zero). -/
def addAdvertisingData : List Nat :=
  storeBytes (List.replicate ADVERTISING_MAX_DATALEN 0) 0
    [0x02,  -- data[0]  AD 1 length
     0x01,  -- data[1]  AD 1 type: flags
     0x06,  -- data[2]  BR/EDR not supported | General discoverable mode
     0x1B,  -- data[3]  AD 2 length
     0xFF,  -- data[4]  AD 2 type: Manufacturer Specific data
     0xA6,  -- data[5]  Company
     0x02,  -- data[6]
     0x00,  -- data[7]  Model
     0x00,  -- data[8]  PCBA_Version
     0x00,  -- data[9]  Error_Code_Status
     100,   -- data[10] Battery
     0xB0,  -- data[11] Serial number
     0xD0,  -- data[12]
     0x56,  -- data[13]
     0xF2,  -- data[14]
     0xB5,  -- data[15]
     0x12,  -- data[16]
     0x00,  -- data[17]
     0x00,  -- data[18]
     0x00,  -- data[19]
     0x00]  -- data[20]

/-- The fixed local name of `Mgmt::addAdvertising` (Mgmt.cpp line 253), as
bytes. -/
def localNameBytes : List Nat :=
  "SKYWALKER-XXXXX".toList.map (fun c => c.toNat)

/-- The scan-response buffer of `Mgmt::addAdvertising` (Mgmt.cpp lines
248-254): length byte 0x10 and type byte 0x09 (complete local name) on the
zero-initialized 17-byte array, then `memcpy` of `SCAN_RSP_MAX_DATALEN - 2`
bytes of the local name at offset 2. -/
def addAdvertisingScanRspData : List Nat :=
  storeBytes (storeBytes (List.replicate SCAN_RSP_MAX_DATALEN 0) 0 [0x10, 0x09]) 2
    (localNameBytes.take (SCAN_RSP_MAX_DATALEN - 2))

/-- The frame built by `Mgmt::addAdvertising` (Mgmt.cpp lines 179-254). -/
def addAdvertisingRequest (m : Mgmt) : AddAdvertisingRequest :=
  { header :=
      { code := EAddAdvertisingCommand
        controllerId := m.controllerIndex
        dataSize := (hciHeaderSize + 1 + 4 + 2 + 2 + 1 + 1
          + ADVERTISING_MAX_DATALEN + SCAN_RSP_MAX_DATALEN) - hciHeaderSize }
    inst := 0x01
    flags := 0
    duration := 0
    timeout := 0
    advDataLen := ADVERTISING_MAX_DATALEN
    scanRspLen := SCAN_RSP_MAX_DATALEN
    data := addAdvertisingData
    scanRspData := addAdvertisingScanRspData }

/-- Result of one public operation: the returned boolean plus the warning
entries emitted through `Logger::warn`. -/
structure OpResult where
  ok : Bool
  warnings : List String
deriving Repr, DecidableEq

/-- `Mgmt::setName` (Mgmt.cpp lines 61-91): build the frame, send it through
the transport, warn and return false on rejection. -/
def setName (send : List Nat → Bool) (m : Mgmt) (name shortName : List Nat) : OpResult :=
  if send (setNameRequest m name shortName).bytes then
    { ok := true, warnings := [] }
  else
    { ok := false, warnings := ["  + Failed to set name"] }

/-- Warning text of `Mgmt::setState` (Mgmt.cpp line 113). -/
def setStateWarning (commandCode newState : Nat) : String :=
  "  + Failed to set " ++ kCommandCodeNames commandCode ++ " state to: "
    ++ toString newState

/-- `Mgmt::setState` (Mgmt.cpp lines 98-118): build the frame, send it, warn
and return false on rejection. -/
def setState (send : List Nat → Bool) (commandCode controllerId newState : Nat) : OpResult :=
  if send (setStateRequest commandCode controllerId newState).bytes then
    { ok := true, warnings := [] }
  else
    { ok := false, warnings := [setStateWarning commandCode newState] }

/-- `Mgmt::setPowered` as an operation. -/
def setPowered (send : List Nat → Bool) (m : Mgmt) (newState : Bool) : OpResult :=
  setState send ESetPoweredCommand m.controllerIndex (if newState then 1 else 0)

/-- `Mgmt::setBredr` as an operation. -/
def setBredr (send : List Nat → Bool) (m : Mgmt) (newState : Bool) : OpResult :=
  setState send ESetBREDRCommand m.controllerIndex (if newState then 1 else 0)

/-- `Mgmt::setSecureConnections` as an operation. -/
def setSecureConnections (send : List Nat → Bool) (m : Mgmt) (newState : Nat) : OpResult :=
  setState send ESetSecureConnectionsCommand m.controllerIndex newState

/-- `Mgmt::setBondable` as an operation. -/
def setBondable (send : List Nat → Bool) (m : Mgmt) (newState : Bool) : OpResult :=
  setState send ESetBondableCommand m.controllerIndex (if newState then 1 else 0)

/-- `Mgmt::setConnectable` as an operation. -/
def setConnectable (send : List Nat → Bool) (m : Mgmt) (newState : Bool) : OpResult :=
  setState send ESetConnectableCommand m.controllerIndex (if newState then 1 else 0)

/-- `Mgmt::setLE` as an operation. -/
def setLE (send : List Nat → Bool) (m : Mgmt) (newState : Bool) : OpResult :=
  setState send ESetLowEnergyCommand m.controllerIndex (if newState then 1 else 0)

/-- `Mgmt::setAdvertising` as an operation. -/
def setAdvertising (send : List Nat → Bool) (m : Mgmt) (newState : Nat) : OpResult :=
  setState send ESetAdvertisingCommand m.controllerIndex newState

/-- `Mgmt::addAdvertising` (Mgmt.cpp lines 179-263) as an operation. -/
def addAdvertising (send : List Nat → Bool) (m : Mgmt) : OpResult :=
  if send (addAdvertisingRequest m).bytes then
    { ok := true, warnings := [] }
  else
    { ok := false, warnings := ["  + Failed to start advertising with UUID"] }

/-! ### Shared helper lemmas -/

theorem snprintfCopied_length_le (size : Nat) (s : List Nat) :
    (snprintfCopied size s).length ≤ size - 1 := by
  unfold snprintfCopied
  rw [List.length_take]
  exact Nat.min_le_left _ _

theorem cStringBuffer_length (size : Nat) (s : List Nat) (h : 1 ≤ size) :
    (cStringBuffer size s).length = size := by
  have hle := snprintfCopied_length_le size s
  simp only [cStringBuffer, List.length_append, List.length_replicate]
  omega

theorem storeBytes_length (bs buf : List Nat) (i : Nat) :
    (storeBytes buf i bs).length = buf.length := by
  induction bs generalizing buf i with
  | nil => rfl
  | cons b t ih => simp [storeBytes, ih, List.length_set]

theorem truncTake (k : Nat) (s : List Nat) :
    (if s.length ≤ k then s else s.take k) = s.take k
    ∧ (if s.length ≤ k then s else s.take k).length = min s.length k := by
  by_cases h : s.length ≤ k
  · simp [h, List.take_of_length_le h, Nat.min_eq_left h]
  · simp [h, List.length_take, Nat.min_comm]

theorem setState_result (send : List Nat → Bool) (commandCode controllerId newState : Nat) :
    (setState send commandCode controllerId newState).ok
        = send (setStateRequest commandCode controllerId newState).bytes
    ∧ (setState send commandCode controllerId newState).warnings
        = (if send (setStateRequest commandCode controllerId newState).bytes then []
           else [setStateWarning commandCode newState]) := by
  unfold setState
  by_cases h : send (setStateRequest commandCode controllerId newState).bytes <;> simp [h]

/-! ### Claims -/

/-- C1: for every command frame the facade builds (setName, setState and its
thin boolean/level wrappers, addAdvertising), the header's `dataSize`
(payloadLength) field equals the exact byte size of the payload that
immediately follows the 6-byte header, never including the header, and the
serialized frame is exactly header bytes followed by payload bytes with no
padding. -/
theorem frame_payloadLength_exact (m : Mgmt) (name shortName : List Nat)
    (commandCode controllerId newState : Nat) (b : Bool) (lvl : Nat) :
    ((setNameRequest m name shortName).name ++ (setNameRequest m name shortName).shortName).length
        = (setNameRequest m name shortName).header.dataSize
    ∧ (setNameRequest m name shortName).bytes.length
        = hciHeaderSize + (setNameRequest m name shortName).header.dataSize
    ∧ [(setStateRequest commandCode controllerId newState).state].length
        = (setStateRequest commandCode controllerId newState).header.dataSize
    ∧ (setStateRequest commandCode controllerId newState).bytes.length
        = hciHeaderSize + (setStateRequest commandCode controllerId newState).header.dataSize
    ∧ (setPoweredRequest m b).bytes.length
        = hciHeaderSize + (setPoweredRequest m b).header.dataSize
    ∧ (setBredrRequest m b).bytes.length
        = hciHeaderSize + (setBredrRequest m b).header.dataSize
    ∧ (setSecureConnectionsRequest m lvl).bytes.length
        = hciHeaderSize + (setSecureConnectionsRequest m lvl).header.dataSize
    ∧ (setBondableRequest m b).bytes.length
        = hciHeaderSize + (setBondableRequest m b).header.dataSize
    ∧ (setConnectableRequest m b).bytes.length
        = hciHeaderSize + (setConnectableRequest m b).header.dataSize
    ∧ (setLERequest m b).bytes.length
        = hciHeaderSize + (setLERequest m b).header.dataSize
    ∧ (setAdvertisingRequest m lvl).bytes.length
        = hciHeaderSize + (setAdvertisingRequest m lvl).header.dataSize
    ∧ ([(addAdvertisingRequest m).inst] ++ u32Bytes (addAdvertisingRequest m).flags
        ++ u16Bytes (addAdvertisingRequest m).duration
        ++ u16Bytes (addAdvertisingRequest m).timeout
        ++ [(addAdvertisingRequest m).advDataLen, (addAdvertisingRequest m).scanRspLen]
        ++ (addAdvertisingRequest m).data ++ (addAdvertisingRequest m).scanRspData).length
        = (addAdvertisingRequest m).header.dataSize
    ∧ (addAdvertisingRequest m).bytes.length
        = hciHeaderSize + (addAdvertisingRequest m).header.dataSize := by
  have hn := cStringBuffer_length 249 (truncateName name) (by omega)
  have hs := cStringBuffer_length 11 (truncateShortName shortName) (by omega)
  have hd : addAdvertisingData.length = 31 := by
    simp [addAdvertisingData, storeBytes_length, ADVERTISING_MAX_DATALEN]
  have hr : addAdvertisingScanRspData.length = 17 := by
    simp [addAdvertisingScanRspData, storeBytes_length, SCAN_RSP_MAX_DATALEN]
  refine ⟨?_, ?_, ?_, ?_, ?_, ?_, ?_, ?_, ?_, ?_, ?_, ?_, ?_⟩ <;>
    simp [setNameRequest, setStateRequest, setPoweredRequest, setBredrRequest,
      setSecureConnectionsRequest, setBondableRequest, setConnectableRequest,
      setLERequest, setAdvertisingRequest, addAdvertisingRequest,
      SetNameRequest.bytes, SetStateRequest.bytes, AddAdvertisingRequest.bytes,
      HciHeader.bytes, u16Bytes, u32Bytes, hciHeaderSize, hn, hs, hd, hr,
      ADVERTISING_MAX_DATALEN, SCAN_RSP_MAX_DATALEN]

/-- C3: `truncateName` returns the prefix of its input of length
`min (input length) kMaxAdvertisingNameLength` (identity at or under the
limit, a prefix of exactly the limit above it), and `truncateShortName` does
the same with `kMaxAdvertisingShortNameLength`; both are total functions. -/
theorem truncate_name_spec (s t : List Nat) :
    truncateName s = s.take kMaxAdvertisingNameLength
    ∧ (truncateName s).length = min s.length kMaxAdvertisingNameLength
    ∧ (s.length ≤ kMaxAdvertisingNameLength → truncateName s = s)
    ∧ (kMaxAdvertisingNameLength < s.length
        → (truncateName s).length = kMaxAdvertisingNameLength)
    ∧ truncateShortName t = t.take kMaxAdvertisingShortNameLength
    ∧ (truncateShortName t).length = min t.length kMaxAdvertisingShortNameLength
    ∧ (t.length ≤ kMaxAdvertisingShortNameLength → truncateShortName t = t)
    ∧ (kMaxAdvertisingShortNameLength < t.length
        → (truncateShortName t).length = kMaxAdvertisingShortNameLength) := by
  have h1 := truncTake kMaxAdvertisingNameLength s
  have h2 := truncTake kMaxAdvertisingShortNameLength t
  have l1 : (truncateName s).length = min s.length kMaxAdvertisingNameLength := h1.2
  have l2 : (truncateShortName t).length = min t.length kMaxAdvertisingShortNameLength := h2.2
  refine ⟨h1.1, l1, fun h => by simp [truncateName, h], fun h => ?_,
    h2.1, l2, fun h => by simp [truncateShortName, h], fun h => ?_⟩
  · rw [l1, Nat.min_eq_right (Nat.le_of_lt h)]
  · rw [l2, Nat.min_eq_right (Nat.le_of_lt h)]

/-- C3 witness: a 300-byte name is truncated to exactly 248 bytes; a 2-byte
short name is returned unchanged. -/
theorem truncate_name_spec_witness :
    (truncateName (List.replicate 300 65)).length = kMaxAdvertisingNameLength
    ∧ truncateShortName [72, 73] = [72, 73] := by
  constructor
  · exact (truncate_name_spec (List.replicate 300 65) []).2.2.2.1
      (by rw [List.length_replicate]; decide)
  · exact (truncate_name_spec [] [72, 73]).2.2.2.2.2.2.1 (by decide)

/-- C2 counterexample: the frame built by `addAdvertising` has
`advDataLen = 31` (the full fixed buffer size, `ADVERTISING_MAX_DATALEN`),
not 21, refuting the claim at controller index 0. -/
theorem addAdvertising_advDataLen_not_21 :
    ¬((addAdvertisingRequest ⟨0⟩).advDataLen = 21
      ∧ (addAdvertisingRequest ⟨0⟩).scanRspLen = 17) := by
  intro h
  exact absurd h.1 (by decide)

/-- C2 amended: the frame encoded by `addAdvertising` has `advDataLen = 31`
(the full fixed advertising buffer size, although only the first 21 bytes are
populated and bytes 21..30 stay zero) and `scanRspLen = 17` (which does equal
the number of meaningful bytes populated in the scan-response buffer). -/
theorem addAdvertising_length_fields (m : Mgmt) :
    (addAdvertisingRequest m).advDataLen = ADVERTISING_MAX_DATALEN
    ∧ (addAdvertisingRequest m).advDataLen = 31
    ∧ (addAdvertisingRequest m).scanRspLen = 17
    ∧ (addAdvertisingRequest m).data.drop 21 = List.replicate 10 0
    ∧ (addAdvertisingRequest m).scanRspData.length = 17 :=
  ⟨rfl, rfl, rfl,
   (by decide : addAdvertisingData.drop 21 = List.replicate 10 0),
   (by decide : addAdvertisingScanRspData.length = 17)⟩

/-- C4: each boolean setter encodes `true` as state byte exactly 1 and
`false` as exactly 0, under its own command code. -/
theorem bool_setters_state_byte (m : Mgmt) :
    (setPoweredRequest m true).state = 1
    ∧ (setPoweredRequest m false).state = 0
    ∧ (setPoweredRequest m true).header.code = ESetPoweredCommand
    ∧ (setPoweredRequest m false).header.code = ESetPoweredCommand
    ∧ (setBredrRequest m true).state = 1
    ∧ (setBredrRequest m false).state = 0
    ∧ (setBredrRequest m true).header.code = ESetBREDRCommand
    ∧ (setBredrRequest m false).header.code = ESetBREDRCommand
    ∧ (setBondableRequest m true).state = 1
    ∧ (setBondableRequest m false).state = 0
    ∧ (setBondableRequest m true).header.code = ESetBondableCommand
    ∧ (setBondableRequest m false).header.code = ESetBondableCommand
    ∧ (setConnectableRequest m true).state = 1
    ∧ (setConnectableRequest m false).state = 0
    ∧ (setConnectableRequest m true).header.code = ESetConnectableCommand
    ∧ (setConnectableRequest m false).header.code = ESetConnectableCommand
    ∧ (setLERequest m true).state = 1
    ∧ (setLERequest m false).state = 0
    ∧ (setLERequest m true).header.code = ESetLowEnergyCommand
    ∧ (setLERequest m false).header.code = ESetLowEnergyCommand :=
  ⟨rfl, rfl, rfl, rfl, rfl, rfl, rfl, rfl, rfl, rfl,
   rfl, rfl, rfl, rfl, rfl, rfl, rfl, rfl, rfl, rfl⟩

/-- C5: for every pair of input strings, the SetName frame's payloadLength
field equals exactly 260 = (6 + 249 + 11) - 6, regardless of input length. -/
theorem setName_payloadLength_260 (m : Mgmt) (name shortName : List Nat) :
    (setNameRequest m name shortName).header.dataSize = 260 := rfl

/-- C6: in the SetName payload both fixed buffers are zero-padded and
null-terminated: each buffer starts with the bytes `snprintf` copied from the
(truncated) string, every byte after them up to the end of the buffer is
zero, and at least one such zero byte (the terminator) exists. -/
theorem setName_buffers_zero_padded (m : Mgmt) (name shortName : List Nat) :
    (setNameRequest m name shortName).name.take
        (snprintfCopied 249 (truncateName name)).length
        = snprintfCopied 249 (truncateName name)
    ∧ (setNameRequest m name shortName).name.drop
        (snprintfCopied 249 (truncateName name)).length
        = List.replicate (249 - (snprintfCopied 249 (truncateName name)).length) 0
    ∧ (snprintfCopied 249 (truncateName name)).length < 249
    ∧ (setNameRequest m name shortName).shortName.take
        (snprintfCopied 11 (truncateShortName shortName)).length
        = snprintfCopied 11 (truncateShortName shortName)
    ∧ (setNameRequest m name shortName).shortName.drop
        (snprintfCopied 11 (truncateShortName shortName)).length
        = List.replicate (11 - (snprintfCopied 11 (truncateShortName shortName)).length) 0
    ∧ (snprintfCopied 11 (truncateShortName shortName)).length < 11 := by
  have hn := snprintfCopied_length_le 249 (truncateName name)
  have hs := snprintfCopied_length_le 11 (truncateShortName shortName)
  refine ⟨?_, ?_, by omega, ?_, ?_, by omega⟩
  · exact List.take_left _ _
  · exact List.drop_left _ _
  · exact List.take_left _ _
  · exact List.drop_left _ _

/-- C7: the addAdvertising frame has instance id 1 and zero
flags/duration/timeout; its advertising data starts with the 3-byte flags
entry (length 0x02, AD type 0x01, value 0x06) followed by a
manufacturer-specific-data entry (AD type 0xFF) carrying the vendor id
0x02A6, model/version/status bytes, battery 100 and the fixed serial number;
its scan-response buffer is exactly one complete-local-name entry (length
0x10, AD type 0x09) holding the fixed 15-byte name "SKYWALKER-XXXXX". -/
theorem addAdvertising_reference_payload (m : Mgmt) :
    (addAdvertisingRequest m).inst = 1
    ∧ (addAdvertisingRequest m).flags = 0
    ∧ (addAdvertisingRequest m).duration = 0
    ∧ (addAdvertisingRequest m).timeout = 0
    ∧ (addAdvertisingRequest m).data.take 3 = [0x02, 0x01, 0x06]
    ∧ (addAdvertisingRequest m).data.getD 3 0 = 0x1B
    ∧ (addAdvertisingRequest m).data.getD 4 0 = 0xFF
    ∧ ((addAdvertisingRequest m).data.drop 5).take 2 = [0xA6, 0x02]
    ∧ ((addAdvertisingRequest m).data.drop 7).take 3 = [0x00, 0x00, 0x00]
    ∧ (addAdvertisingRequest m).data.getD 10 0 = 100
    ∧ ((addAdvertisingRequest m).data.drop 11).take 10
        = [0xB0, 0xD0, 0x56, 0xF2, 0xB5, 0x12, 0x00, 0x00, 0x00, 0x00]
    ∧ (addAdvertisingRequest m).scanRspData = 0x10 :: 0x09 :: localNameBytes
    ∧ localNameBytes = "SKYWALKER-XXXXX".toList.map (fun c => c.toNat)
    ∧ localNameBytes.length = 15 :=
  ⟨rfl, rfl, rfl, rfl,
   (by decide : addAdvertisingData.take 3 = [0x02, 0x01, 0x06]),
   (by decide : addAdvertisingData.getD 3 0 = 0x1B),
   (by decide : addAdvertisingData.getD 4 0 = 0xFF),
   (by decide : (addAdvertisingData.drop 5).take 2 = [0xA6, 0x02]),
   (by decide : (addAdvertisingData.drop 7).take 3 = [0x00, 0x00, 0x00]),
   (by decide : addAdvertisingData.getD 10 0 = 100),
   (by decide : (addAdvertisingData.drop 11).take 10
      = [0xB0, 0xD0, 0x56, 0xF2, 0xB5, 0x12, 0x00, 0x00, 0x00, 0x00]),
   (by decide : addAdvertisingScanRspData = 0x10 :: 0x09 :: localNameBytes),
   rfl, (by decide : localNameBytes.length = 15)⟩

/-- C8: for every public operation and every transport stub, the operation
returns exactly the transport's verdict on the built frame; on rejection it
emits exactly the one warning entry naming the attempted operation, on
acceptance it emits no warning (no retry, no other corrective action). -/
theorem ops_failure_reporting (send : List Nat → Bool) (m : Mgmt)
    (name shortName : List Nat) (commandCode controllerId newState : Nat)
    (b : Bool) (lvl : Nat) :
    ((setName send m name shortName).ok = send (setNameRequest m name shortName).bytes
      ∧ (setName send m name shortName).warnings
          = (if send (setNameRequest m name shortName).bytes then []
             else ["  + Failed to set name"]))
    ∧ ((setState send commandCode controllerId newState).ok
          = send (setStateRequest commandCode controllerId newState).bytes
      ∧ (setState send commandCode controllerId newState).warnings
          = (if send (setStateRequest commandCode controllerId newState).bytes then []
             else [setStateWarning commandCode newState]))
    ∧ ((setPowered send m b).ok = send (setPoweredRequest m b).bytes
      ∧ (setPowered send m b).warnings.length
          = (if (setPowered send m b).ok then 0 else 1))
    ∧ ((setBredr send m b).ok = send (setBredrRequest m b).bytes
      ∧ (setBredr send m b).warnings.length
          = (if (setBredr send m b).ok then 0 else 1))
    ∧ ((setSecureConnections send m lvl).ok = send (setSecureConnectionsRequest m lvl).bytes
      ∧ (setSecureConnections send m lvl).warnings.length
          = (if (setSecureConnections send m lvl).ok then 0 else 1))
    ∧ ((setBondable send m b).ok = send (setBondableRequest m b).bytes
      ∧ (setBondable send m b).warnings.length
          = (if (setBondable send m b).ok then 0 else 1))
    ∧ ((setConnectable send m b).ok = send (setConnectableRequest m b).bytes
      ∧ (setConnectable send m b).warnings.length
          = (if (setConnectable send m b).ok then 0 else 1))
    ∧ ((setLE send m b).ok = send (setLERequest m b).bytes
      ∧ (setLE send m b).warnings.length
          = (if (setLE send m b).ok then 0 else 1))
    ∧ ((setAdvertising send m lvl).ok = send (setAdvertisingRequest m lvl).bytes
      ∧ (setAdvertising send m lvl).warnings.length
          = (if (setAdvertising send m lvl).ok then 0 else 1))
    ∧ ((addAdvertising send m).ok = send (addAdvertisingRequest m).bytes
      ∧ (addAdvertising send m).warnings
          = (if send (addAdvertisingRequest m).bytes then []
             else ["  + Failed to start advertising with UUID"])) := by
  have hw : ∀ code ci st, (setState send code ci st).warnings.length
      = (if (setState send code ci st).ok then 0 else 1) := by
    intro code ci st
    rcases setState_result send code ci st with ⟨h1, h2⟩
    by_cases h : send (setStateRequest code ci st).bytes <;> simp [h1, h2, h]
  refine ⟨?_, setState_result send commandCode controllerId newState,
    ⟨(setState_result send _ _ _).1, hw _ _ _⟩,
    ⟨(setState_result send _ _ _).1, hw _ _ _⟩,
    ⟨(setState_result send _ _ _).1, hw _ _ _⟩,
    ⟨(setState_result send _ _ _).1, hw _ _ _⟩,
    ⟨(setState_result send _ _ _).1, hw _ _ _⟩,
    ⟨(setState_result send _ _ _).1, hw _ _ _⟩,
    ⟨(setState_result send _ _ _).1, hw _ _ _⟩, ?_⟩
  · unfold setName
    by_cases h : send (setNameRequest m name shortName).bytes <;> simp [h]
  · unfold addAdvertising
    by_cases h : send (addAdvertisingRequest m).bytes <;> simp [h]

/-- C9: `setState`, `setAdvertising` and `setSecureConnections` perform no
range validation: every 8-bit value, including values outside 0..2, is placed
unchanged into the frame's state byte. -/
theorem setState_no_range_validation (commandCode controllerId n : Nat)
    (m : Mgmt) (h : n < 256) :
    (setStateRequest commandCode controllerId n).state = n
    ∧ (setAdvertisingRequest m n).state = n
    ∧ (setSecureConnectionsRequest m n).state = n := by
  have hm : n % 256 = n := Nat.mod_eq_of_lt h
  exact ⟨hm, hm, hm⟩

/-- C9 witness: the out-of-range level 200 is forwarded unchanged by
`setState`, `setAdvertising` and `setSecureConnections`. -/
theorem setState_no_range_validation_witness :
    (setStateRequest ESetAdvertisingCommand 0 200).state = 200
    ∧ (setAdvertisingRequest ⟨0⟩ 200).state = 200
    ∧ (setSecureConnectionsRequest ⟨0⟩ 200).state = 200 :=
  setState_no_range_validation ESetAdvertisingCommand 0 200 ⟨0⟩ (by decide)

/-- C10: every frame built by the public operations carries the controller
index fixed at the instance's construction in its header. -/
theorem frames_use_constructed_controllerIndex (m : Mgmt)
    (name shortName : List Nat) (b : Bool) (lvl : Nat) :
    (setNameRequest m name shortName).header.controllerId = m.controllerIndex
    ∧ (setPoweredRequest m b).header.controllerId = m.controllerIndex
    ∧ (setBredrRequest m b).header.controllerId = m.controllerIndex
    ∧ (setSecureConnectionsRequest m lvl).header.controllerId = m.controllerIndex
    ∧ (setBondableRequest m b).header.controllerId = m.controllerIndex
    ∧ (setConnectableRequest m b).header.controllerId = m.controllerIndex
    ∧ (setLERequest m b).header.controllerId = m.controllerIndex
    ∧ (setAdvertisingRequest m lvl).header.controllerId = m.controllerIndex
    ∧ (addAdvertisingRequest m).header.controllerId = m.controllerIndex :=
  ⟨rfl, rfl, rfl, rfl, rfl, rfl, rfl, rfl, rfl⟩

end ggk
